import Mathlib

/-!
Shallow embedding of `src/windows_msvc.rs` (rust-embed-resource, MSVC backend).

Paths are modelled as lists of components; a Rust `String`/`OsString` path is
converted to components by splitting on the separator and dropping empty and
`"."` components (mirroring `std::path::Components` normalisation).  The
ambient machine state read by the code (the `TARGET` environment variable, the
registry, the filesystem, the `vswhom` locator, `cc::windows_registry::find_tool`
and process spawning) is an explicit `Env` record; the mutable process state
(the `IS_INCLUDED` atomic flag and the `INCLUDE` environment variable) is an
explicit `St` record threaded through the effectful functions.  A Rust panic
(`expect` / `panic!`) is an `Except.error` carrying the panic message.
-/

namespace EmbedResource

/-- A filesystem path, as its list of normal components. -/
abbrev PathBuf := List String

/-- Rust `str::starts_with`, as a prefix test on the character list. -/
def strStartsWith (s pre : String) : Bool :=
  pre.data.isPrefixOf s.data

/-- Split a character list on a separator character. -/
def splitChar (sep : Char) : List Char → List (List Char)
  | [] => [[]]
  | c :: cs =>
      if c = sep then [] :: splitChar sep cs
      else
        match splitChar sep cs with
        | [] => [[c]]
        | h :: t => (c :: h) :: t

/-- Convert a Rust path string to components: split on the separator, drop
empty and current-dir components (as `std::path::Components` does). -/
def toComponents (s : String) : PathBuf :=
  ((splitChar '/' s.data).map (fun cs => String.mk cs)).filter (fun c => c ≠ "" && c ≠ ".")

/-- `PathBuf::push`: append a (possibly multi-component) relative path. -/
def pushPath (p : PathBuf) (s : String) : PathBuf :=
  p ++ toComponents s

/-- `PathBuf::pop`: drop the final component. -/
def popPath (p : PathBuf) : PathBuf :=
  p.dropLast

/-- `Path::file_name`: the final component, unless it is a parent-dir
component or the path has no components at all. -/
def fileName (p : PathBuf) : Option String :=
  match p.getLast? with
  | some c => if c = ".." then none else some c
  | none => none

/-- The file type reported by `DirEntry::file_type` (which does not follow
symlinks): a directory, a regular file, or something else (e.g. a symlink). -/
inductive FileKind where
  | dir
  | file
  | symlink
deriving DecidableEq, Repr

/-- One successful `fs::read_dir` entry: `file_name().into_string()` may fail
on undecodable names (`name = none`), and `file_type()` may error
(`ftype = none`). -/
structure DirEntry where
  name : Option String
  ftype : Option FileKind
deriving DecidableEq, Repr

/-- The filesystem surface the code queries: `Path::is_dir`, `Path::exists`
and `fs::read_dir` (the latter keyed by the raw string path the code builds;
its list holds the `Ok` entries in enumeration order, mirroring the
`.filter(|d| d.is_ok()).map(Result::unwrap)` in the source). -/
structure FS where
  isDir : PathBuf → Bool
  pathExists : PathBuf → Bool
  readDir : String → Option (List DirEntry)

/-- Result of opening a registry key and reading a value with
`get_value::<String, _>`: the key may be absent, the value may be absent, the
value may not be readable as a string, or a string is obtained. -/
inductive RegResult where
  | keyMissing
  | valueMissing
  | notString
  | found (s : String)
deriving DecidableEq, Repr

/-- The `vswhom::VsFindResult` fields the code consumes. -/
structure VsFindResult where
  windows_sdk_root : Option String
deriving DecidableEq, Repr

/-- Outcome of `Command::status()`: an io error (the process could not be
spawned) or an exit status, reduced to its `success()` bit. -/
inductive SpawnOutcome where
  | ioError
  | exited (success : Bool)
deriving DecidableEq, Repr

/-- The ambient machine state the code reads: the `TARGET` environment
variable, registry reads (key path, value name), the filesystem, the result of
`VsFindResult::search()`, `cc::windows_registry::find_tool` (target, tool name
to the found tool's environment list), and process spawning. -/
structure Env where
  target : Option String
  regGet : String → String → RegResult
  fs : FS
  vsSearch : Option VsFindResult
  ccFindTool : String → String → Option (List (String × String))
  spawnStatus : PathBuf → List String → SpawnOutcome

/-- The mutable process state: the `IS_INCLUDED` atomic flag, the `INCLUDE`
environment variable, and an instrumentation counter recording how many times
the body `include_windows_10_kits_impl` has executed. -/
structure St where
  isIncluded : Bool
  includeVar : Option String
  augRuns : Nat
deriving DecidableEq, Repr

/-- The target architecture. -/
inductive Arch where
  | X86
  | X64
deriving DecidableEq, Repr

/-- Architecture selection from the target triple (line 46 of the source):
`X64` exactly when the triple starts with `"x86_64"`. -/
def targetArch (t : String) : Arch :=
  if strStartsWith t "x86_64" then Arch.X64 else Arch.X86

/-- `try_bin_dir` / `try_bin_dir_impl`: push the architecture-selected subpath
onto the root and keep the result only if it is an existing directory. -/
def try_bin_dir (fs : FS) (root_dir : PathBuf) (x86_bin x64_bin : String) (arch : Arch) :
    Option PathBuf :=
  let d := match arch with
    | Arch.X86 => pushPath root_dir x86_bin
    | Arch.X64 => pushPath root_dir x64_bin
  if fs.isDir d then some d else none

/-- `try_tool`: push the tool filename and keep the result only if a
filesystem entry exists there. -/
def try_tool (fs : FS) (pb : PathBuf) (tool : String) : Option PathBuf :=
  let p := pushPath pb tool
  if fs.pathExists p then some p else none

/-- The `Installed Roots` registry key path. -/
def installedRootsKey : String := "SOFTWARE\\Microsoft\\Windows Kits\\Installed Roots"

/-- The legacy SDK registry key path. -/
def legacySdkKey : String := "SOFTWARE\\Microsoft\\Microsoft SDKs\\Windows"

/-- `find_windows_kits_tool` (Windows 8 - 10): read one `Installed Roots`
value, then `try_bin_dir` with `bin/x86` / `bin/x64`, then `try_tool`.  Every
registry failure shape collapses to `none` via `.ok()`. -/
def find_windows_kits_tool (env : Env) (key : String) (arch : Arch) (tool : String) :
    Option PathBuf :=
  match env.regGet installedRootsKey key with
  | RegResult.found root_dir =>
      (try_bin_dir env.fs (toComponents root_dir) "bin/x86" "bin/x64" arch).bind
        (fun pb => try_tool env.fs pb tool)
  | _ => none

/-- `find_latest_windows_sdk_tool` (Windows Vista - 7): read
`CurrentInstallFolder` under the legacy SDK key, then `try_bin_dir` with
`Bin` / `Bin/x64`, then `try_tool`. -/
def find_latest_windows_sdk_tool (env : Env) (arch : Arch) (tool : String) :
    Option PathBuf :=
  match env.regGet legacySdkKey "CurrentInstallFolder" with
  | RegResult.found root_dir =>
      (try_bin_dir env.fs (toComponents root_dir) "Bin" "Bin/x64" arch).bind
        (fun pb => try_tool env.fs pb tool)
  | _ => none

/-- `include_windows_10_kits_impl`: read `TARGET` (panicking when absent),
look up `cl.exe` via `cc::windows_registry::find_tool`, and when its
environment carries an `INCLUDE` entry overwrite the process `INCLUDE`
variable with it.  The `kit_root` argument is received but not used. -/
def include_windows_10_kits_impl (kit_root : String) (env : Env) (st : St) :
    Except String St :=
  match env.target with
  | none => Except.error "No TARGET env var"
  | some target =>
      match env.ccFindTool target "cl.exe" with
      | some kvs =>
          match kvs.find? (fun kv => kv.1 = "INCLUDE") with
          | some kv => Except.ok { st with includeVar := some kv.2 }
          | none => Except.ok st
      | none => Except.ok st

/-- `include_windows_10_kits`: atomically swap the `IS_INCLUDED` flag to
`true`; run the body only when the old value was `false`.  The `augRuns`
counter records each execution of the body. -/
def include_windows_10_kits (kit_root : String) (env : Env) (st : St) :
    Except String St :=
  let old := st.isIncluded
  let st1 : St := { st with isIncluded := true }
  if old then Except.ok st1
  else include_windows_10_kits_impl kit_root env { st1 with augRuns := st1.augRuns + 1 }

/-- Sequential composition of `include_windows_10_kits` calls (the
linearisation of the `SeqCst` atomic swaps of concurrent callers). -/
def runIncludeCalls : List (String × Env) → St → Except String St
  | [], st => Except.ok st
  | (k, env) :: rest, st =>
      match include_windows_10_kits k env st with
      | Except.error e => Except.error e
      | Except.ok st1 => runIncludeCalls rest st1

/-- The entry loop of `find_windows_10_kits_tool` (lines 116-127): walk the
entries of `<kit_root>/bin` in enumeration order; skip an entry when its name
is undecodable, its file type errored, or it is a regular file; otherwise try
`try_bin_dir` with `<name>/x86` / `<name>/x64` then `try_tool`, returning the
first success. -/
def scan_entries (fs : FS) (root_dir : PathBuf) (arch : Arch) (tool : String) :
    List DirEntry → Option PathBuf
  | [] => none
  | e :: rest =>
      match e.name, e.ftype with
      | some fname, some ft =>
          if ft = FileKind.file then scan_entries fs root_dir arch tool rest
          else
            match (try_bin_dir fs root_dir (fname ++ "/x86") (fname ++ "/x64") arch).bind
                (fun pb => try_tool fs pb tool) with
            | some rc => some rc
            | none => scan_entries fs root_dir arch tool rest
      | _, _ => scan_entries fs root_dir arch tool rest

/-- `find_windows_10_kits_tool` (Windows 10 with subdir support): read the
kit root from the registry (any failure yields no result); run the guarded
environment augmentation; then enumerate `<kit_root>/bin` and return the
first entry whose versioned bin directory holds the tool. -/
def find_windows_10_kits_tool (env : Env) (st : St) (key : String) (arch : Arch)
    (tool : String) : Except String (Option PathBuf × St) :=
  match env.regGet installedRootsKey key with
  | RegResult.found kit_root =>
      match include_windows_10_kits kit_root env st with
      | Except.error e => Except.error e
      | Except.ok st1 =>
          let root_dir := kit_root ++ "/bin"
          match env.fs.readDir root_dir with
          | none => Except.ok (none, st1)
          | some entries =>
              Except.ok (scan_entries env.fs (toComponents root_dir) arch tool entries, st1)
  | _ => Except.ok (none, st)

/-- `find_with_vswhom`: ask the locator for an SDK root; when present, first
interpret its final component as a version (`expect` panics when there is no
final component), go two levels up and into `bin/<version>`, and probe with
`x86` / `x64`; when that fails, go two levels up from the root and probe with
`bin/x86` / `bin/x64`. -/
def find_with_vswhom (env : Env) (arch : Arch) (tool : String) :
    Except String (Option PathBuf) :=
  match env.vsSearch.bind (fun r => r.windows_sdk_root) with
  | none => Except.ok none
  | some rootStr =>
      let root := toComponents rootStr
      match fileName root with
      | none => Except.error "malformed vswhom-returned SDK root"
      | some ver =>
          let binRoot := pushPath (pushPath (popPath (popPath root)) "bin") ver
          match (try_bin_dir env.fs binRoot "x86" "x64" arch).bind
              (fun pb => try_tool env.fs pb tool) with
          | some p => Except.ok (some p)
          | none =>
              Except.ok ((try_bin_dir env.fs (popPath (popPath root)) "bin/x86" "bin/x64" arch).bind
                (fun pb => try_tool env.fs pb tool))

/-- `find_windows_sdk_tool_impl`: resolve the architecture from `TARGET`
(panicking when the variable is absent), then run the probes in their fixed
`or_else` order, short-circuiting on the first `some`. -/
def find_windows_sdk_tool_impl (env : Env) (st : St) (tool : String) :
    Except String (Option PathBuf × St) :=
  match env.target with
  | none => Except.error "No TARGET env var"
  | some t =>
      let arch := targetArch t
      match find_windows_kits_tool env "KitsRoot10" arch tool with
      | some p => Except.ok (some p, st)
      | none =>
      match find_windows_kits_tool env "KitsRoot81" arch tool with
      | some p => Except.ok (some p, st)
      | none =>
      match find_windows_kits_tool env "KitsRoot" arch tool with
      | some p => Except.ok (some p, st)
      | none =>
      match find_latest_windows_sdk_tool env arch tool with
      | some p => Except.ok (some p, st)
      | none =>
      match find_windows_10_kits_tool env st "KitsRoot10" arch tool with
      | Except.error e => Except.error e
      | Except.ok (some p, st1) => Except.ok (some p, st1)
      | Except.ok (none, st1) =>
          match find_with_vswhom env arch tool with
          | Except.error e => Except.error e
          | Except.ok o => Except.ok (o, st1)

/-- `ResourceCompiler::compile_resource`: run discovery for `rc.exe`, fall
back to the bare name when discovery finds nothing, spawn once, and panic with
one message on spawn failure and another on a nonzero exit.  The second
component records the spawned (program, arguments) calls. -/
def compile_resource (env : Env) (st : St) (out_dir pfx resource : String) :
    Except String St × List (PathBuf × List String) :=
  match find_windows_sdk_tool_impl env st "rc.exe" with
  | Except.error e => (Except.error e, [])
  | Except.ok (opt, st1) =>
      let prog : PathBuf := match opt with
        | some p => p
        | none => toComponents "rc.exe"
      let args := ["/fo", out_dir ++ "/" ++ pfx ++ ".lib", "/I", out_dir, resource]
      match env.spawnStatus prog args with
      | SpawnOutcome.ioError =>
          (Except.error "Are you sure you have RC.EXE in your $PATH?", [(prog, args)])
      | SpawnOutcome.exited ok =>
          if ok then (Except.ok st1, [(prog, args)])
          else (Except.error "RC.EXE failed to compile specified resource file", [(prog, args)])

end EmbedResource

namespace EmbedResource

/-! ### Concrete environments used by witnesses and counterexamples -/

/-- An empty filesystem: no directories, no entries, unreadable listings. -/
def fs0 : FS :=
  { isDir := fun _ => false, pathExists := fun _ => false, readDir := fun _ => none }

/-- A machine with a 32-bit target and every probe source empty; spawning
always fails with an io error. -/
def env0 : Env :=
  { target := some "i686-pc-windows-msvc"
    regGet := fun _ _ => RegResult.keyMissing
    fs := fs0
    vsSearch := none
    ccFindTool := fun _ _ => none
    spawnStatus := fun _ _ => SpawnOutcome.ioError }

/-- The initial process state: flag down, no `INCLUDE` value, no runs. -/
def st0 : St := { isIncluded := false, includeVar := none, augRuns := 0 }

/-! ### Claim theorems -/

/-- Claim C9: architecture resolution yields `X64` exactly when the target
triple begins with `"x86_64"` and `X86` for every other string, and discovery
panics (a fatal build error) when the `TARGET` variable is absent. -/
theorem c9_arch_resolution :
    (∀ t : String, strStartsWith t "x86_64" = true → targetArch t = Arch.X64) ∧
    (∀ t : String, strStartsWith t "x86_64" = false → targetArch t = Arch.X86) ∧
    (∀ (env : Env) (st : St) (tool : String), env.target = none →
      find_windows_sdk_tool_impl env st tool = Except.error "No TARGET env var") := by
  refine ⟨fun t ht => ?_, fun t ht => ?_, fun env st tool ht => ?_⟩
  · simp [targetArch, ht]
  · simp [targetArch, ht]
  · simp [find_windows_sdk_tool_impl, ht]

/-- Witness for C9 at concrete inputs. -/
theorem c9_arch_resolution_witness :
    targetArch "x86_64-pc-windows-msvc" = Arch.X64 ∧
    targetArch "i686-pc-windows-msvc" = Arch.X86 ∧
    find_windows_sdk_tool_impl { env0 with target := none } st0 "rc.exe" =
      Except.error "No TARGET env var" :=
  ⟨c9_arch_resolution.1 _ (by decide), c9_arch_resolution.2.1 _ (by decide),
   c9_arch_resolution.2.2 { env0 with target := none } st0 "rc.exe" rfl⟩

/-- Claim C10: the environment-augmentation body is independent of the
kit-root argument it receives — its effect depends only on `TARGET` and the
native-toolchain lookup. -/
theorem c10_kit_root_independent :
    ∀ (k1 k2 : String) (env : Env) (st : St),
      include_windows_10_kits_impl k1 env st = include_windows_10_kits_impl k2 env st := by
  intro k1 k2 env st
  rfl

/-- Claim C7: `try_bin_dir` appends the x86 subpath under `X86` and the x64
subpath under `X64` and succeeds exactly when the resulting path is an
existing directory; `try_tool` appends the tool filename and succeeds exactly
when a filesystem entry exists there. -/
theorem c7_path_probe_primitives :
    ∀ (fs : FS) (root : PathBuf) (a b tool : String) (pb d p : PathBuf),
      (try_bin_dir fs root a b Arch.X86 = some d ↔ d = pushPath root a ∧ fs.isDir d = true) ∧
      (try_bin_dir fs root a b Arch.X64 = some d ↔ d = pushPath root b ∧ fs.isDir d = true) ∧
      (try_bin_dir fs root a b Arch.X86 = none ↔ fs.isDir (pushPath root a) = false) ∧
      (try_bin_dir fs root a b Arch.X64 = none ↔ fs.isDir (pushPath root b) = false) ∧
      (try_tool fs pb tool = some p ↔ p = pushPath pb tool ∧ fs.pathExists p = true) ∧
      (try_tool fs pb tool = none ↔ fs.pathExists (pushPath pb tool) = false) := by
  intro fs root a b tool pb d p
  refine ⟨?_, ?_, ?_, ?_, ?_, ?_⟩
  · constructor
    · intro h
      by_cases hd : fs.isDir (pushPath root a) = true
      · simp [try_bin_dir, hd] at h
        exact ⟨h.symm, h ▸ hd⟩
      · simp [try_bin_dir, hd] at h
    · rintro ⟨rfl, hd⟩
      simp [try_bin_dir, hd]
  · constructor
    · intro h
      by_cases hd : fs.isDir (pushPath root b) = true
      · simp [try_bin_dir, hd] at h
        exact ⟨h.symm, h ▸ hd⟩
      · simp [try_bin_dir, hd] at h
    · rintro ⟨rfl, hd⟩
      simp [try_bin_dir, hd]
  · constructor
    · intro h
      by_cases hd : fs.isDir (pushPath root a) = true
      · simp [try_bin_dir, hd] at h
      · simpa using hd
    · intro h
      simp [try_bin_dir, h]
  · constructor
    · intro h
      by_cases hd : fs.isDir (pushPath root b) = true
      · simp [try_bin_dir, hd] at h
      · simpa using hd
    · intro h
      simp [try_bin_dir, h]
  · constructor
    · intro h
      by_cases hd : fs.pathExists (pushPath pb tool) = true
      · simp [try_tool, hd] at h
        exact ⟨h.symm, h ▸ hd⟩
      · simp [try_tool, hd] at h
    · rintro ⟨rfl, hd⟩
      simp [try_tool, hd]
  · constructor
    · intro h
      by_cases hd : fs.pathExists (pushPath pb tool) = true
      · simp [try_tool, hd] at h
      · simpa using hd
    · intro h
      simp [try_tool, h]

/-- Claim C4: for the registry probes, all three failure shapes — key or
value missing, value not a parseable string, resolved directory absent —
produce the same observable outcome `none`, never an error. -/
theorem c4_registry_failures_uniform :
    ∀ (env : Env) (key : String) (arch : Arch) (tool : String),
      (env.regGet installedRootsKey key = RegResult.keyMissing →
        find_windows_kits_tool env key arch tool = none) ∧
      (env.regGet installedRootsKey key = RegResult.valueMissing →
        find_windows_kits_tool env key arch tool = none) ∧
      (env.regGet installedRootsKey key = RegResult.notString →
        find_windows_kits_tool env key arch tool = none) ∧
      (∀ s, env.regGet installedRootsKey key = RegResult.found s →
        try_bin_dir env.fs (toComponents s) "bin/x86" "bin/x64" arch = none →
        find_windows_kits_tool env key arch tool = none) ∧
      (env.regGet legacySdkKey "CurrentInstallFolder" = RegResult.keyMissing →
        find_latest_windows_sdk_tool env arch tool = none) ∧
      (env.regGet legacySdkKey "CurrentInstallFolder" = RegResult.valueMissing →
        find_latest_windows_sdk_tool env arch tool = none) ∧
      (env.regGet legacySdkKey "CurrentInstallFolder" = RegResult.notString →
        find_latest_windows_sdk_tool env arch tool = none) ∧
      (∀ s, env.regGet legacySdkKey "CurrentInstallFolder" = RegResult.found s →
        try_bin_dir env.fs (toComponents s) "Bin" "Bin/x64" arch = none →
        find_latest_windows_sdk_tool env arch tool = none) := by
  intro env key arch tool
  refine ⟨fun h => ?_, fun h => ?_, fun h => ?_, fun s h hb => ?_,
          fun h => ?_, fun h => ?_, fun h => ?_, fun s h hb => ?_⟩
  · simp [find_windows_kits_tool, h]
  · simp [find_windows_kits_tool, h]
  · simp [find_windows_kits_tool, h]
  · simp [find_windows_kits_tool, h, hb]
  · simp [find_latest_windows_sdk_tool, h]
  · simp [find_latest_windows_sdk_tool, h]
  · simp [find_latest_windows_sdk_tool, h]
  · simp [find_latest_windows_sdk_tool, h, hb]

/-- A machine where the legacy SDK key resolves but the directory is absent. -/
def env4 : Env :=
  { env0 with
    regGet := fun k _ => if k = legacySdkKey then RegResult.found "C:/SDK" else RegResult.keyMissing }

/-- Witness for C4 at concrete inputs: a missing Installed-Roots key and a
legacy value whose directory does not exist both yield `none`. -/
theorem c4_registry_failures_uniform_witness :
    find_windows_kits_tool env4 "KitsRoot10" Arch.X86 "rc.exe" = none ∧
    find_latest_windows_sdk_tool env4 Arch.X86 "rc.exe" = none :=
  ⟨(c4_registry_failures_uniform env4 "KitsRoot10" Arch.X86 "rc.exe").1 rfl,
   (c4_registry_failures_uniform env4 "KitsRoot10" Arch.X86 "rc.exe").2.2.2.2.2.2.2
     "C:/SDK" rfl rfl⟩

end EmbedResource

namespace EmbedResource

/-! ### Helper lemmas about the augmentation guard -/

theorem impl_fields (k : String) (env : Env) (st st' : St)
    (h : include_windows_10_kits_impl k env st = Except.ok st') :
    st'.isIncluded = st.isIncluded ∧ st'.augRuns = st.augRuns := by
  unfold include_windows_10_kits_impl at h
  split at h
  · exact absurd h (by simp)
  · split at h
    · split at h
      · injection h with h2
        subst h2
        exact ⟨rfl, rfl⟩
      · injection h with h2
        subst h2
        exact ⟨rfl, rfl⟩
    · injection h with h2
      subst h2
      exact ⟨rfl, rfl⟩

theorem include_noop (k : String) (env : Env) (st : St) (h : st.isIncluded = true) :
    include_windows_10_kits k env st = Except.ok st := by
  obtain ⟨i, v, r⟩ := st
  simp only at h
  subst h
  simp [include_windows_10_kits]

theorem include_flag (k : String) (env : Env) (st st' : St)
    (h : include_windows_10_kits k env st = Except.ok st') : st'.isIncluded = true := by
  by_cases hi : st.isIncluded = true
  · rw [include_noop k env st hi] at h
    injection h with h2
    subst h2
    exact hi
  · unfold include_windows_10_kits at h
    simp only [Bool.not_eq_true] at hi
    rw [hi, if_neg (by simp)] at h
    exact (impl_fields _ _ _ _ h).1

theorem include_runs (k : String) (env : Env) (st st' : St) (h0 : st.isIncluded = false)
    (h : include_windows_10_kits k env st = Except.ok st') : st'.augRuns = st.augRuns + 1 := by
  unfold include_windows_10_kits at h
  rw [h0, if_neg (by simp)] at h
  exact (impl_fields _ _ _ _ h).2

theorem runCalls_stable (calls : List (String × Env)) (st st' : St)
    (hi : st.isIncluded = true) (h : runIncludeCalls calls st = Except.ok st') : st' = st := by
  induction calls generalizing st with
  | nil =>
      unfold runIncludeCalls at h
      injection h with h2
      exact h2.symm
  | cons ke rest ih =>
      obtain ⟨k, env⟩ := ke
      unfold runIncludeCalls at h
      rw [include_noop k env st hi] at h
      exact ih st hi h

/-- Claim C2: the augmentation body executes at most once per process: a call
finding the flag already set is a no-op returning the state unchanged, and
across any (linearised) sequence of calls starting from a fresh state the
body's run count never exceeds one. -/
theorem c2_augmentation_at_most_once :
    (∀ (k : String) (env : Env) (st : St), st.isIncluded = true →
      include_windows_10_kits k env st = Except.ok st) ∧
    (∀ (calls : List (String × Env)) (st st' : St), st.isIncluded = false → st.augRuns = 0 →
      runIncludeCalls calls st = Except.ok st' → st'.augRuns ≤ 1) := by
  constructor
  · exact fun k env st h => include_noop k env st h
  · intro calls st st' h0 hr h
    cases calls with
    | nil =>
        unfold runIncludeCalls at h
        injection h with h2
        rw [← h2, hr]
        exact Nat.zero_le 1
    | cons ke rest =>
        obtain ⟨k, env⟩ := ke
        unfold runIncludeCalls at h
        cases hinc : include_windows_10_kits k env st with
        | error e => simp [hinc] at h
        | ok st1 =>
            simp only [hinc] at h
            have hflag := include_flag k env st st1 hinc
            have hruns := include_runs k env st st1 h0 hinc
            rw [runCalls_stable rest st1 st' hflag h, hruns, hr]

/-- A machine whose native toolchain reports an `INCLUDE` value. -/
def envCc : Env :=
  { env0 with ccFindTool := fun _ _ => some [("INCLUDE", "C:/inc")] }

/-- Witness for C2: two sequential calls leave the run counter at one. -/
theorem c2_augmentation_at_most_once_witness :
    runIncludeCalls [("C:/Kits10", envCc), ("C:/Kits10", envCc)] st0 =
      Except.ok { isIncluded := true, includeVar := some "C:/inc", augRuns := 1 } ∧
    ({ isIncluded := true, includeVar := some "C:/inc", augRuns := 1 } : St).augRuns ≤ 1 :=
  ⟨rfl,
   c2_augmentation_at_most_once.2 [("C:/Kits10", envCc), ("C:/Kits10", envCc)] st0
     { isIncluded := true, includeVar := some "C:/inc", augRuns := 1 } rfl rfl rfl⟩

/-! ### State of the Windows-10 subdirectory-scan probe -/

theorem find10_state (env : Env) (st : St) (key : String) (arch : Arch) (tool : String)
    (o : Option PathBuf) (st' : St)
    (h : find_windows_10_kits_tool env st key arch tool = Except.ok (o, st')) :
    (st' = st ∧ (∀ root, env.regGet installedRootsKey key ≠ RegResult.found root) ∧ o = none) ∨
    (∃ root, env.regGet installedRootsKey key = RegResult.found root ∧
      include_windows_10_kits root env st = Except.ok st') := by
  unfold find_windows_10_kits_tool at h
  cases hreg : env.regGet installedRootsKey key with
  | found root =>
      right
      rw [hreg] at h
      simp only at h
      cases hinc : include_windows_10_kits root env st with
      | error e => rw [hinc] at h; exact absurd h (by simp)
      | ok st1 =>
          rw [hinc] at h
          simp only at h
          refine ⟨root, rfl, ?_⟩
          cases hrd : env.fs.readDir (root ++ "/bin") with
          | none =>
              rw [hrd] at h
              simp only at h
              injection h with h2
              have h3 : st1 = st' := congrArg Prod.snd h2
              rw [hinc, h3]
          | some entries =>
              rw [hrd] at h
              simp only at h
              injection h with h2
              have h3 : st1 = st' := congrArg Prod.snd h2
              rw [hinc, h3]
  | keyMissing =>
      left
      rw [hreg] at h
      simp only at h
      injection h with h2
      have ho : o = none := (congrArg Prod.fst h2).symm
      have hst : st' = st := (congrArg Prod.snd h2).symm
      exact ⟨hst, fun root hc => absurd hc (by simp), ho⟩
  | valueMissing =>
      left
      rw [hreg] at h
      simp only at h
      injection h with h2
      have ho : o = none := (congrArg Prod.fst h2).symm
      have hst : st' = st := (congrArg Prod.snd h2).symm
      exact ⟨hst, fun root hc => absurd hc (by simp), ho⟩
  | notString =>
      left
      rw [hreg] at h
      simp only at h
      injection h with h2
      have ho : o = none := (congrArg Prod.fst h2).symm
      have hst : st' = st := (congrArg Prod.snd h2).symm
      exact ⟨hst, fun root hc => absurd hc (by simp), ho⟩

end EmbedResource

namespace EmbedResource

/-- Claim C3 (amended): whenever the Windows-10 subdirectory-scan probe
returns a tool path the augmentation has already been triggered (the flag is
set in the resulting state); indeed it is triggered whenever the probe's
registry read succeeds, before the subdirectory enumeration is consulted;
and the guard keeps it from running again (the run counter is unchanged when
the flag was already set). -/
theorem c3_augment_before_scan :
    ∀ (env : Env) (st : St) (key : String) (arch : Arch) (tool : String),
      (∀ p st', find_windows_10_kits_tool env st key arch tool = Except.ok (some p, st') →
        st'.isIncluded = true) ∧
      (∀ root, env.regGet installedRootsKey key = RegResult.found root →
        ∀ o st', find_windows_10_kits_tool env st key arch tool = Except.ok (o, st') →
          st'.isIncluded = true) ∧
      (st.isIncluded = true →
        ∀ o st', find_windows_10_kits_tool env st key arch tool = Except.ok (o, st') →
          st'.augRuns = st.augRuns) := by
  intro env st key arch tool
  refine ⟨?_, ?_, ?_⟩
  · intro p st' h
    rcases find10_state env st key arch tool (some p) st' h with ⟨_, _, ho⟩ | ⟨root, _, hinc⟩
    · exact absurd ho (by simp)
    · exact include_flag root env st st' hinc
  · intro root hreg o st' h
    rcases find10_state env st key arch tool o st' h with ⟨_, hne, _⟩ | ⟨root', _, hinc⟩
    · exact absurd hreg (hne root)
    · exact include_flag root' env st st' hinc
  · intro hi o st' h
    rcases find10_state env st key arch tool o st' h with ⟨hst, _, _⟩ | ⟨root', _, hinc⟩
    · rw [hst]
    · rw [include_noop root' env st hi] at hinc
      injection hinc with h2
      rw [← h2]

/-- A machine where the Installed-Roots kit root resolves but its `bin`
directory cannot be read, and the native toolchain reports an `INCLUDE`
value. -/
def env3 : Env :=
  { env0 with
    regGet := fun k v =>
      if k = installedRootsKey && v = "KitsRoot10" then RegResult.found "C:/Kits10"
      else RegResult.keyMissing
    ccFindTool := fun _ _ => some [("INCLUDE", "C:/inc")] }

/-- Counterexample for C3 as stated: on `env3` the subdirectory-scan probe
returns no tool path, yet the augmentation body has run (the flag is set, the
`INCLUDE` variable was overwritten and the run counter is 1) — so the
augmentation does not run only when the probe succeeds. -/
theorem c3_counterexample :
    find_windows_10_kits_tool env3 st0 "KitsRoot10" Arch.X86 "rc.exe" =
      Except.ok (none, { isIncluded := true, includeVar := some "C:/inc", augRuns := 1 }) ∧
    st0.augRuns = 0 :=
  ⟨rfl, rfl⟩

/-- Witness for C3 at concrete inputs. -/
theorem c3_augment_before_scan_witness :
    ({ isIncluded := true, includeVar := some "C:/inc", augRuns := 1 } : St).isIncluded = true :=
  (c3_augment_before_scan env3 st0 "KitsRoot10" Arch.X86 "rc.exe").2.1 "C:/Kits10" rfl
    none { isIncluded := true, includeVar := some "C:/inc", augRuns := 1 } rfl

end EmbedResource

namespace EmbedResource

/-- Claim C6 (amended): when the locator is unavailable or reports no SDK
root the VS-instance probe yields no result without error; when the reported
root has a final file-name component the probe either produces a tool path or
yields no result, never an error; but when the reported root has no final
component (for example the empty string) the probe panics with
"malformed vswhom-returned SDK root". -/
theorem c6_vswhom_no_error :
    ∀ (env : Env) (arch : Arch) (tool : String),
      (env.vsSearch.bind (fun r => r.windows_sdk_root) = none →
        find_with_vswhom env arch tool = Except.ok none) ∧
      (∀ s v, env.vsSearch.bind (fun r => r.windows_sdk_root) = some s →
        fileName (toComponents s) = some v →
        ∃ o, find_with_vswhom env arch tool = Except.ok o) ∧
      (∀ s, env.vsSearch.bind (fun r => r.windows_sdk_root) = some s →
        fileName (toComponents s) = none →
        find_with_vswhom env arch tool = Except.error "malformed vswhom-returned SDK root") := by
  intro env arch tool
  refine ⟨?_, ?_, ?_⟩
  · intro h
    simp [find_with_vswhom, h]
  · intro s v hs hv
    unfold find_with_vswhom
    rw [hs]
    simp only [hv]
    cases hfst : (try_bin_dir env.fs
        (pushPath (pushPath (popPath (popPath (toComponents s))) "bin") v) "x86" "x64" arch).bind
        (fun pb => try_tool env.fs pb tool) with
    | none => exact ⟨_, rfl⟩
    | some p => exact ⟨some p, rfl⟩
  · intro s hs hv
    unfold find_with_vswhom
    rw [hs]
    simp only [hv]

/-- A machine whose VS locator reports the empty string as the SDK root. -/
def envVs : Env :=
  { env0 with vsSearch := some { windows_sdk_root := some "" } }

/-- Counterexample for C6 as stated: for the locator-reported SDK root `""`
the probe does not yield a result or nothing — it panics. -/
theorem c6_counterexample :
    find_with_vswhom envVs Arch.X86 "rc.exe" =
      Except.error "malformed vswhom-returned SDK root" :=
  rfl

/-- Witness for C6 at concrete inputs: an absent locator yields no result. -/
theorem c6_vswhom_no_error_witness :
    find_with_vswhom env0 Arch.X86 "rc.exe" = Except.ok none :=
  (c6_vswhom_no_error env0 Arch.X86 "rc.exe").1 rfl

end EmbedResource

namespace EmbedResource

/-- The probe loop as the C8 claim words it (spec variant, for comparison
with `scan_entries`): skip every entry that is not a directory according to
its reported file type, and every entry whose name cannot be decoded. -/
def scan_entries_spec_c8 (fs : FS) (root_dir : PathBuf) (arch : Arch) (tool : String) :
    List DirEntry → Option PathBuf
  | [] => none
  | e :: rest =>
      match e.name, e.ftype with
      | some fname, some FileKind.dir =>
          match (try_bin_dir fs root_dir (fname ++ "/x86") (fname ++ "/x64") arch).bind
              (fun pb => try_tool fs pb tool) with
          | some rc => some rc
          | none => scan_entries_spec_c8 fs root_dir arch tool rest
      | _, _ => scan_entries_spec_c8 fs root_dir arch tool rest

/-- Claim C8 (amended): the scan walks the entries of `<kit_root>/bin` in
enumeration order, skipping every entry whose name cannot be decoded, whose
file type cannot be determined, or which is a regular file (an entry of any
other kind — e.g. a symlink — is not skipped; `try_bin_dir`'s directory check
vets it), and returns the first success; the probe returns the scan's result
over the listed entries together with the post-augmentation state. -/
theorem c8_scan_first_success :
    (∀ (fs : FS) (root : PathBuf) (arch : Arch) (tool : String) (e : DirEntry)
        (es : List DirEntry),
      (e.name = none →
        scan_entries fs root arch tool (e :: es) = scan_entries fs root arch tool es) ∧
      (e.ftype = none →
        scan_entries fs root arch tool (e :: es) = scan_entries fs root arch tool es) ∧
      (e.ftype = some FileKind.file →
        scan_entries fs root arch tool (e :: es) = scan_entries fs root arch tool es) ∧
      (∀ f k, e.name = some f → e.ftype = some k → k ≠ FileKind.file →
        (∀ p, (try_bin_dir fs root (f ++ "/x86") (f ++ "/x64") arch).bind
            (fun pb => try_tool fs pb tool) = some p →
          scan_entries fs root arch tool (e :: es) = some p) ∧
        ((try_bin_dir fs root (f ++ "/x86") (f ++ "/x64") arch).bind
            (fun pb => try_tool fs pb tool) = none →
          scan_entries fs root arch tool (e :: es) = scan_entries fs root arch tool es))) ∧
    (∀ (env : Env) (st : St) (key : String) (arch : Arch) (tool root : String) (st1 : St),
      env.regGet installedRootsKey key = RegResult.found root →
      include_windows_10_kits root env st = Except.ok st1 →
      (env.fs.readDir (root ++ "/bin") = none →
        find_windows_10_kits_tool env st key arch tool = Except.ok (none, st1)) ∧
      (∀ es, env.fs.readDir (root ++ "/bin") = some es →
        find_windows_10_kits_tool env st key arch tool =
          Except.ok (scan_entries env.fs (toComponents (root ++ "/bin")) arch tool es, st1))) := by
  constructor
  · intro fs root arch tool e es
    refine ⟨?_, ?_, ?_, ?_⟩
    · intro h
      simp [scan_entries, h]
    · intro h
      cases hn : e.name <;> simp [scan_entries, hn, h]
    · intro h
      cases hn : e.name <;> simp [scan_entries, hn, h]
    · intro f k hn hk hkf
      constructor
      · intro p hc
        simp [scan_entries, hn, hk, hkf, hc]
      · intro hc
        simp [scan_entries, hn, hk, hkf, hc]
  · intro env st key arch tool root st1 hreg hinc
    constructor
    · intro hrd
      unfold find_windows_10_kits_tool
      rw [hreg]
      simp only
      rw [hinc]
      simp only
      rw [hrd]
    · intro es hrd
      unfold find_windows_10_kits_tool
      rw [hreg]
      simp only
      rw [hinc]
      simp only
      rw [hrd]

/-- A machine where the Windows-10 kit root's `bin` holds a single entry of
symlink type whose target contains the tool for `X64`. -/
def env8 : Env :=
  { env0 with
    target := some "x86_64-pc-windows-msvc"
    regGet := fun k v =>
      if k = installedRootsKey && v = "KitsRoot10" then RegResult.found "C:/Kits10"
      else RegResult.keyMissing
    fs :=
      { isDir := fun p => p == ["C:", "Kits10", "bin", "10.0.1", "x64"]
        pathExists := fun p => p == ["C:", "Kits10", "bin", "10.0.1", "x64", "rc.exe"]
        readDir := fun d =>
          if d = "C:/Kits10/bin" then
            some [{ name := some "10.0.1", ftype := some FileKind.symlink }]
          else none } }

/-- Counterexample for C8 as stated: the single entry is not a directory (its
reported type is a symlink), so under the claim's skip rule the scan would
find nothing — but the code tries it and returns a tool path from it. -/
theorem c8_counterexample :
    find_windows_10_kits_tool env8 st0 "KitsRoot10" Arch.X64 "rc.exe" =
      Except.ok (some ["C:", "Kits10", "bin", "10.0.1", "x64", "rc.exe"],
        { isIncluded := true, includeVar := none, augRuns := 1 }) ∧
    scan_entries_spec_c8 env8.fs (toComponents "C:/Kits10/bin") Arch.X64 "rc.exe"
      [{ name := some "10.0.1", ftype := some FileKind.symlink }] = none ∧
    ({ name := some "10.0.1", ftype := some FileKind.symlink } : DirEntry).ftype ≠
      some FileKind.dir :=
  ⟨rfl, rfl, by decide⟩

/-- Witness for C8 at concrete inputs. -/
theorem c8_scan_first_success_witness :
    find_windows_10_kits_tool env8 st0 "KitsRoot10" Arch.X64 "rc.exe" =
      Except.ok (scan_entries env8.fs (toComponents ("C:/Kits10" ++ "/bin")) Arch.X64 "rc.exe"
          [{ name := some "10.0.1", ftype := some FileKind.symlink }],
        { isIncluded := true, includeVar := none, augRuns := 1 }) :=
  (c8_scan_first_success.2 env8 st0 "KitsRoot10" Arch.X64 "rc.exe" "C:/Kits10"
      { isIncluded := true, includeVar := none, augRuns := 1 } rfl rfl).2
    [{ name := some "10.0.1", ftype := some FileKind.symlink }] rfl

end EmbedResource

namespace EmbedResource

/-- Claim C1: discovery tries its probes in the fixed order KitsRoot10,
KitsRoot81, KitsRoot (Installed Roots), legacy CurrentInstallFolder,
Windows-10 subdirectory scan, VS instance; the first non-empty probe
determines the result (later probes are not consulted, so the state is left
untouched by them), the overall result is empty exactly when every probe is
empty, and in particular an Installed-Roots hit beats a legacy-SDK hit. -/
theorem c1_probe_order :
    ∀ (env : Env) (st : St) (tool t : String), env.target = some t →
      (∀ p, find_windows_kits_tool env "KitsRoot10" (targetArch t) tool = some p →
        find_windows_sdk_tool_impl env st tool = Except.ok (some p, st)) ∧
      (find_windows_kits_tool env "KitsRoot10" (targetArch t) tool = none →
        ∀ p, find_windows_kits_tool env "KitsRoot81" (targetArch t) tool = some p →
        find_windows_sdk_tool_impl env st tool = Except.ok (some p, st)) ∧
      (find_windows_kits_tool env "KitsRoot10" (targetArch t) tool = none →
        find_windows_kits_tool env "KitsRoot81" (targetArch t) tool = none →
        ∀ p, find_windows_kits_tool env "KitsRoot" (targetArch t) tool = some p →
        find_windows_sdk_tool_impl env st tool = Except.ok (some p, st)) ∧
      (find_windows_kits_tool env "KitsRoot10" (targetArch t) tool = none →
        find_windows_kits_tool env "KitsRoot81" (targetArch t) tool = none →
        find_windows_kits_tool env "KitsRoot" (targetArch t) tool = none →
        ∀ p, find_latest_windows_sdk_tool env (targetArch t) tool = some p →
        find_windows_sdk_tool_impl env st tool = Except.ok (some p, st)) ∧
      (find_windows_kits_tool env "KitsRoot10" (targetArch t) tool = none →
        find_windows_kits_tool env "KitsRoot81" (targetArch t) tool = none →
        find_windows_kits_tool env "KitsRoot" (targetArch t) tool = none →
        find_latest_windows_sdk_tool env (targetArch t) tool = none →
        ∀ p st1, find_windows_10_kits_tool env st "KitsRoot10" (targetArch t) tool =
            Except.ok (some p, st1) →
        find_windows_sdk_tool_impl env st tool = Except.ok (some p, st1)) ∧
      (find_windows_kits_tool env "KitsRoot10" (targetArch t) tool = none →
        find_windows_kits_tool env "KitsRoot81" (targetArch t) tool = none →
        find_windows_kits_tool env "KitsRoot" (targetArch t) tool = none →
        find_latest_windows_sdk_tool env (targetArch t) tool = none →
        ∀ st1, find_windows_10_kits_tool env st "KitsRoot10" (targetArch t) tool =
            Except.ok (none, st1) →
        ∀ o, find_with_vswhom env (targetArch t) tool = Except.ok o →
        find_windows_sdk_tool_impl env st tool = Except.ok (o, st1)) ∧
      (∀ st1, find_windows_sdk_tool_impl env st tool = Except.ok (none, st1) →
        find_windows_kits_tool env "KitsRoot10" (targetArch t) tool = none ∧
        find_windows_kits_tool env "KitsRoot81" (targetArch t) tool = none ∧
        find_windows_kits_tool env "KitsRoot" (targetArch t) tool = none ∧
        find_latest_windows_sdk_tool env (targetArch t) tool = none ∧
        find_windows_10_kits_tool env st "KitsRoot10" (targetArch t) tool =
          Except.ok (none, st1) ∧
        find_with_vswhom env (targetArch t) tool = Except.ok none) ∧
      (∀ p q, find_windows_kits_tool env "KitsRoot10" (targetArch t) tool = some p →
        find_latest_windows_sdk_tool env (targetArch t) tool = some q →
        find_windows_sdk_tool_impl env st tool = Except.ok (some p, st)) := by
  intro env st tool t ht
  refine ⟨?_, ?_, ?_, ?_, ?_, ?_, ?_, ?_⟩
  · intro p h1
    simp only [find_windows_sdk_tool_impl, ht]
    simp [h1]
  · intro h1 p h2
    simp only [find_windows_sdk_tool_impl, ht]
    simp [h1, h2]
  · intro h1 h2 p h3
    simp only [find_windows_sdk_tool_impl, ht]
    simp [h1, h2, h3]
  · intro h1 h2 h3 p h4
    simp only [find_windows_sdk_tool_impl, ht]
    simp [h1, h2, h3, h4]
  · intro h1 h2 h3 h4 p st1 h5
    simp only [find_windows_sdk_tool_impl, ht]
    simp [h1, h2, h3, h4, h5]
  · intro h1 h2 h3 h4 st1 h5 o h6
    simp only [find_windows_sdk_tool_impl, ht]
    simp [h1, h2, h3, h4, h5, h6]
  · intro st1 h
    simp only [find_windows_sdk_tool_impl, ht] at h
    cases h1 : find_windows_kits_tool env "KitsRoot10" (targetArch t) tool with
    | some p => rw [h1] at h; exact absurd h (by simp)
    | none =>
    rw [h1] at h
    simp only at h
    cases h2 : find_windows_kits_tool env "KitsRoot81" (targetArch t) tool with
    | some p => rw [h2] at h; exact absurd h (by simp)
    | none =>
    rw [h2] at h
    simp only at h
    cases h3 : find_windows_kits_tool env "KitsRoot" (targetArch t) tool with
    | some p => rw [h3] at h; exact absurd h (by simp)
    | none =>
    rw [h3] at h
    simp only at h
    cases h4 : find_latest_windows_sdk_tool env (targetArch t) tool with
    | some p => rw [h4] at h; exact absurd h (by simp)
    | none =>
    rw [h4] at h
    simp only at h
    cases h5 : find_windows_10_kits_tool env st "KitsRoot10" (targetArch t) tool with
    | error e => rw [h5] at h; exact absurd h (by simp)
    | ok pr =>
    obtain ⟨o5, st5⟩ := pr
    rw [h5] at h
    cases o5 with
    | some p => simp only at h; exact absurd h (by simp)
    | none =>
    simp only at h
    cases h6 : find_with_vswhom env (targetArch t) tool with
    | error e => rw [h6] at h; exact absurd h (by simp)
    | ok o =>
    rw [h6] at h
    simp only at h
    have ho : o = none := by
      have := congrArg (fun x => match x with | Except.ok (a, _) => a | _ => none) h
      simpa using this
    have hst : st5 = st1 := by
      have := congrArg (fun x => match x with | Except.ok (_, b) => b | _ => st5) h
      simpa using this
    subst ho
    subst hst
    exact ⟨rfl, rfl, rfl, rfl, rfl, rfl⟩
  · intro p q h1 _
    simp only [find_windows_sdk_tool_impl, ht]
    simp [h1]

/-- A machine where both the KitsRoot10 Installed-Roots probe and the legacy
CurrentInstallFolder probe would each find the tool at distinct locations. -/
def envW : Env :=
  { env0 with
    regGet := fun k v =>
      if k = installedRootsKey && v = "KitsRoot10" then RegResult.found "C:/K10"
      else if k = legacySdkKey && v = "CurrentInstallFolder" then RegResult.found "C:/Legacy"
      else RegResult.keyMissing
    fs :=
      { isDir := fun p => p == ["C:", "K10", "bin", "x86"] || p == ["C:", "Legacy", "Bin"]
        pathExists := fun p =>
          p == ["C:", "K10", "bin", "x86", "rc.exe"] || p == ["C:", "Legacy", "Bin", "rc.exe"]
        readDir := fun _ => none } }

/-- Witness for C1 at concrete inputs: both probes hit, and discovery returns
the Installed-Roots result. -/
theorem c1_probe_order_witness :
    find_windows_kits_tool envW "KitsRoot10" (targetArch "i686-pc-windows-msvc") "rc.exe" =
      some ["C:", "K10", "bin", "x86", "rc.exe"] ∧
    find_latest_windows_sdk_tool envW (targetArch "i686-pc-windows-msvc") "rc.exe" =
      some ["C:", "Legacy", "Bin", "rc.exe"] ∧
    find_windows_sdk_tool_impl envW st0 "rc.exe" =
      Except.ok (some ["C:", "K10", "bin", "x86", "rc.exe"], st0) :=
  ⟨rfl, rfl,
   (c1_probe_order envW st0 "rc.exe" "i686-pc-windows-msvc" rfl).2.2.2.2.2.2.2
     ["C:", "K10", "bin", "x86", "rc.exe"] ["C:", "Legacy", "Bin", "rc.exe"] rfl rfl⟩

end EmbedResource

namespace EmbedResource

/-- Claim C5: the invoker spawns the tool at most once (no retry); and when
discovery is exhausted it falls back to the bare literal `rc.exe` (resolved
by the ambient search path), after which a spawn failure and a
ran-but-nonzero exit each abort the build with their own distinct message. -/
theorem c5_invocation_failures :
    ∀ (env : Env) (st : St) (out_dir pfx resource : String),
      (compile_resource env st out_dir pfx resource).2.length ≤ 1 ∧
      (∀ st1, find_windows_sdk_tool_impl env st "rc.exe" = Except.ok (none, st1) →
        (env.spawnStatus ["rc.exe"]
            ["/fo", out_dir ++ "/" ++ pfx ++ ".lib", "/I", out_dir, resource] =
            SpawnOutcome.ioError →
          compile_resource env st out_dir pfx resource =
            (Except.error "Are you sure you have RC.EXE in your $PATH?",
             [(["rc.exe"], ["/fo", out_dir ++ "/" ++ pfx ++ ".lib", "/I", out_dir, resource])])) ∧
        (env.spawnStatus ["rc.exe"]
            ["/fo", out_dir ++ "/" ++ pfx ++ ".lib", "/I", out_dir, resource] =
            SpawnOutcome.exited false →
          compile_resource env st out_dir pfx resource =
            (Except.error "RC.EXE failed to compile specified resource file",
             [(["rc.exe"], ["/fo", out_dir ++ "/" ++ pfx ++ ".lib", "/I", out_dir, resource])])) ∧
        ("Are you sure you have RC.EXE in your $PATH?" : String) ≠
          "RC.EXE failed to compile specified resource file") := by
  intro env st out_dir pfx resource
  constructor
  · unfold compile_resource
    cases find_windows_sdk_tool_impl env st "rc.exe" with
    | error e => simp
    | ok pr =>
        obtain ⟨opt, st1⟩ := pr
        simp only
        split
        · simp
        · split <;> simp
  · intro st1 hf
    have htc : toComponents "rc.exe" = ["rc.exe"] := rfl
    refine ⟨?_, ?_, ?_⟩
    · intro hs
      unfold compile_resource
      rw [hf]
      simp only [htc]
      rw [hs]
    · intro hs
      unfold compile_resource
      rw [hf]
      simp only [htc]
      rw [hs]
      rfl
    · intro hcontra
      exact absurd (congrArg String.data hcontra) (by simp)

/-- Witness for C5 at concrete inputs: on `env0` every probe is empty, so the
bare `rc.exe` is spawned; the spawn reports an io error and the build aborts
with the spawn-failure message. -/
theorem c5_invocation_failures_witness :
    compile_resource env0 st0 "out" "data" "data.rc" =
      (Except.error "Are you sure you have RC.EXE in your $PATH?",
       [(["rc.exe"], ["/fo", "out" ++ "/" ++ "data" ++ ".lib", "/I", "out", "data.rc"])]) :=
  ((c5_invocation_failures env0 st0 "out" "data" "data.rc").2 st0 rfl).1 rfl

end EmbedResource
